import Mathlib

/-!
Verification development for the Bilibili_crawler repository.

Python text values are modelled as `List Char` (a Python `str` is a sequence of
characters); fallible Python code (raising exceptions, returning `None`) is
modelled with `Option`; machine integers are `Nat`/`Int` (Python integers are
unbounded, so no wrap-around is modelled).  Network and filesystem effects are
modelled by explicit environments and by returned traces/counters.
-/

/-- Chars abbreviates the model of a Python string as a character list. -/
abbrev Chars := List Char

/-- pyReplace models Python `s.replace(old, new)` for a nonempty pattern
`old`: every non-overlapping occurrence of `old` in `s`, scanned left to
right, is replaced by `new`.  (The source never calls `replace` with an
empty pattern; for `old = []` this model returns `s` unchanged.) -/
def pyReplace (old new : Chars) (s : Chars) : Chars :=
  match s with
  | [] => []
  | c :: rest =>
    if old ≠ [] ∧ old.isPrefixOf (c :: rest) then
      new ++ pyReplace old new (List.drop (old.length - 1) rest)
    else
      c :: pyReplace old new rest
termination_by s.length
decreasing_by
  all_goals simp [List.length_drop]
  all_goals omega

/-- pyStrip models Python `s.strip()` with no argument: leading and trailing
whitespace characters are removed. -/
def pyStrip (s : Chars) : Chars :=
  ((s.dropWhile Char.isWhitespace).reverse.dropWhile Char.isWhitespace).reverse

/-- pyDigits reads a nonempty all-digit character list as a natural
number. -/
def pyDigits (ds : Chars) : Option Nat :=
  if ds ≠ [] ∧ ds.all Char.isDigit then
    some (ds.foldl (fun n c => n * 10 + (c.toNat - 48)) 0)
  else none

/-- pyInt models Python `int(s)` on a decimal string: surrounding
whitespace is ignored, one optional sign is allowed, and anything else
raises `ValueError` (modelled by `none`). -/
def pyInt (s : String) : Option Int :=
  match pyStrip s.toList with
  | '-' :: rest => (pyDigits rest).map (fun n => -(n : Int))
  | '+' :: rest => (pyDigits rest).map (fun n => (n : Int))
  | l => (pyDigits l).map (fun n => (n : Int))

/-- pyStr models Python `str(n)` for an integer. -/
def pyStr (n : Int) : String :=
  toString n

/- Embedding of src/lib/utils/platform_utils.py -/

/-- XOR_CODE is the constant used by the BV/AV conversion. -/
def XOR_CODE : Nat := 23442827791579

/-- MASK_CODE is the 51-bit mask used by the BV/AV conversion. -/
def MASK_CODE : Nat := 2251799813685247

/-- MAX_AID is `1 << 51`, the exclusive upper bound of valid AV numbers. -/
def MAX_AID : Nat := 1 <<< 51

/-- ALPHABET is the base-58 digit alphabet of the BV encoding. -/
def ALPHABET : String := "FcwAPNKTMug3GV5Lj7EJnHpWsx4tb8haYeviqBz6rkCy12mUSDQX9RdoZf"

/-- ALPHABET_CHARS is the alphabet as a character list (Python indexes the
string by position, which this list models). -/
def ALPHABET_CHARS : Chars := ALPHABET.toList

/-- ENCODE_MAP is the slot permutation used when encoding. -/
def ENCODE_MAP : List Nat := [8, 7, 0, 5, 1, 3, 2, 4, 6]

/-- DECODE_MAP is `tuple(reversed(ENCODE_MAP))`. -/
def DECODE_MAP : List Nat := ENCODE_MAP.reverse

/-- BASE is the alphabet size (58). -/
def BASE : Nat := ALPHABET.length

/-- PREFIX_STR is the fixed `"BV1"` prefix of a BV code (named `PREFIX` in
the source). -/
def PREFIX_STR : String := "BV1"

/-- CODE_LEN is the number of encoded digits (9). -/
def CODE_LEN : Nat := ENCODE_MAP.length

/-- av2bvLoop models the encoding loop of `av2bv`: for each position drawn
from `ENCODE_MAP` it stores the next base-58 digit of `tmp` at that slot of
`bvid`. -/
def av2bvLoop : List Nat → Chars → Nat → Chars
  | [], bvid, _ => bvid
  | pos :: rest, bvid, tmp =>
    av2bvLoop rest (bvid.set pos (ALPHABET_CHARS.getD (tmp % BASE) 'F')) (tmp / BASE)

/-- av2bv models `platform_utils.av2bv`: converts an AV number to a BV code
string; the `ValueError` raised for a non-positive input is modelled by
`none`. -/
def av2bv (aid : Int) : Option String :=
  if aid ≤ 0 then none
  else
    let tmp := (MAX_AID ||| aid.toNat) ^^^ XOR_CODE
    some (PREFIX_STR ++ String.mk (av2bvLoop ENCODE_MAP (List.replicate CODE_LEN ' ') tmp))

/-- bv2avLoop models the decoding loop of `bv2av`: reads the character at
each position drawn from `DECODE_MAP`, rejects characters outside the
alphabet, and accumulates the base-58 value. -/
def bv2avLoop : List Nat → Chars → Nat → Option Nat
  | [], _, tmp => some tmp
  | pos :: rest, body, tmp =>
    let c := body.getD pos ' '
    if c ∈ ALPHABET_CHARS then
      bv2avLoop rest body (tmp * BASE + ALPHABET_CHARS.indexOf c)
    else none

/-- bv2av models `platform_utils.bv2av`: converts a BV code string back to
its AV number; each `ValueError` branch of the source is modelled by
`none`. -/
def bv2av (bvid : String) : Option Int :=
  if ¬ (PREFIX_STR.toList.isPrefixOf bvid.toList) then none
  else
    let body := bvid.toList.drop PREFIX_STR.length
    if body.length ≠ 9 then none
    else
      match bv2avLoop DECODE_MAP body 0 with
      | none => none
      | some tmp => some (((tmp &&& MASK_CODE) ^^^ XOR_CODE : Nat) : Int)

/-- ILLEGAL_FILENAME_CHARS lists the characters matched by the source's
illegal-character pattern for Windows file names. -/
def ILLEGAL_FILENAME_CHARS : Chars := ['\\', '/', ':', '*', '?', '"', '<', '>', '|']

/-- clean_filename models `platform_utils.clean_filename` on a string input:
illegal path characters and CR/LF become underscores, the result is
stripped, truncated to 200 characters, and an empty result is replaced by
"unnamed_file". -/
def clean_filename (s : Chars) : Chars :=
  let cleaned1 := s.map (fun c => if c ∈ ILLEGAL_FILENAME_CHARS then '_' else c)
  let cleaned2 := cleaned1.map (fun c => if c = '\r' ∨ c = '\n' then '_' else c)
  let truncated := (pyStrip cleaned2).take 200
  if truncated = [] then "unnamed_file".toList else truncated

/- Embedding of src/lib/models/data_models.py -/

/-- CommentType models the `CommentType` enum (VIDEO = 1, DYNAMIC_IMAGE = 11,
DYNAMIC_TEXT = 17). -/
inductive CommentType
  | video
  | dynamicImage
  | dynamicText
deriving DecidableEq

/-- CommentType.val is the numeric code of each enum member. -/
def CommentType.val : CommentType → Nat
  | .video => 1
  | .dynamicImage => 11
  | .dynamicText => 17

/-- RawLevelInfo models the `level_info` sub-dictionary of an API comment
payload; a missing key is `none`. -/
structure RawLevelInfo where
  current_level : Option Nat
deriving DecidableEq

/-- RawMember models the `member` sub-dictionary of an API comment payload. -/
structure RawMember where
  uname : Option Chars
  sex : Option Chars
  mid : Option Int
  level_info : Option RawLevelInfo
deriving DecidableEq

/-- RawContent models the `content` sub-dictionary of an API comment payload. -/
structure RawContent where
  message : Option Chars
deriving DecidableEq

/-- RawReplyControl models the `reply_control` sub-dictionary of an API
comment payload. -/
structure RawReplyControl where
  location : Option Chars
deriving DecidableEq

/-- RawComment models one raw comment dictionary as delivered by the API;
every field the source reads through `.get` is an `Option` whose `none`
case is the missing key. -/
structure RawComment where
  member : Option RawMember
  content : Option RawContent
  reply_control : Option RawReplyControl
  ctime : Option Nat
  like : Option Nat
  rpid : Option Int
  rcount : Option Nat
deriving DecidableEq

/-- CommentData models the `CommentData` dataclass. -/
structure CommentData where
  nickname : Chars
  gender : Chars
  timestamp : Nat
  formatted_time : Chars
  likes : Nat
  message : Chars
  location : Chars
  level : Nat
  uid : Chars
  rpid : Chars
  reply_count : Nat := 0
  is_top : Bool := false
  parent_rpid : Option Chars := none
deriving DecidableEq

/-- CommentData.to_list models `CommentData.to_list`: the CSV row built from
a comment, with the numeric fields rendered through `str`. -/
def CommentData.to_list (c : CommentData) : List Chars :=
  [c.nickname, c.gender, c.formatted_time, (toString c.likes).toList, c.message,
   c.location, (toString c.level).toList, c.uid, c.rpid]

/-- IP_LOC_HEAD is the literal prefix `IP属地：` stripped from locations. -/
def IP_LOC_HEAD : Chars := "IP属地：".toList

/-- CommentData.from_api_response models `CommentData.from_api_response`:
builds a `CommentData` from a raw payload, applying the source's defaults
for missing keys, stripping the `IP属地：` prefix from the location, and
replacing every newline in the message body by a comma. -/
def CommentData.from_api_response (comment_data : RawComment) (formatted_time : Chars)
    (reply_count : Nat := 0) (is_top : Bool := false)
    (parent_rpid : Option Chars := none) : CommentData :=
  let member := comment_data.member.getD ⟨none, none, none, none⟩
  let content := comment_data.content.getD ⟨none⟩
  let reply_control := comment_data.reply_control.getD ⟨none⟩
  let level_info := member.level_info.getD ⟨none⟩
  let location0 := reply_control.location.getD "未知".toList
  let location := if location0 ≠ [] ∧ IP_LOC_HEAD.isPrefixOf location0 then
      pyReplace IP_LOC_HEAD [] location0
    else location0
  let message := pyReplace "\n".toList ",".toList (content.message.getD [])
  { nickname := member.uname.getD "未知用户".toList
    gender := member.sex.getD "保密".toList
    timestamp := comment_data.ctime.getD 0
    formatted_time := formatted_time
    likes := comment_data.like.getD 0
    message := message
    location := location
    level := level_info.current_level.getD 0
    uid := match member.mid with | some m => (pyStr m).toList | none => []
    rpid := match comment_data.rpid with | some r => (pyStr r).toList | none => []
    reply_count := reply_count
    is_top := is_top
    parent_rpid := parent_rpid }

/-- CrawlTask models the `CrawlTask` dataclass (the `title` field, unused by
the batch path, is omitted). -/
structure CrawlTask where
  oid : String
  comment_type : CommentType
deriving DecidableEq

/-- CrawlConfig models the `CrawlConfig` dataclass.  The wall-clock fields
`delay_range` and `retry_interval` only feed `time.sleep` and are not part
of any modelled property, so they are left out. -/
structure CrawlConfig where
  cookies_str : String
  bili_jct : String
  ps : Int := 20
  start_page : Int := 1
  end_page : Int := 99999
  max_retries : Nat := 3
deriving DecidableEq

/-- CrawlConfig.validate models `CrawlConfig.validate`: the list of error
messages accumulated over the five checks, in source order. -/
def CrawlConfig.validate (c : CrawlConfig) : List String :=
  (if c.cookies_str = "" ∨ c.cookies_str = "写入您的cookies" then
    ["cookies_str未配置或使用默认值"] else []) ++
  (if c.bili_jct = "" ∨ c.bili_jct = "cookie中的bili_jct" then
    ["bili_jct未配置或使用默认值"] else []) ++
  (if ¬ (1 ≤ c.ps ∧ c.ps ≤ 20) then ["ps参数应在1-20范围内"] else []) ++
  (if c.start_page < 1 then ["start_page应大于0"] else []) ++
  (if c.end_page < c.start_page then ["end_page应大于等于start_page"] else [])

/- Embedding of src/lib/utils/file_utils.py (the CSV writer) -/

/-- WriteMode models the `mode` argument of `write_csv` ('w' or 'a'). -/
inductive WriteMode
  | w
  | a
deriving DecidableEq

/-- CsvRow is one row of a CSV file. -/
abbrev CsvRow := List Chars

/-- FileSys models the filesystem as a map from path to the rows currently
stored in that file (a missing file is the empty row list). -/
abbrev FileSys := String → List CsvRow

/-- write_csv models `file_utils.write_csv`: mode 'w' truncates the file and
writes the header (when one is given) followed by the data rows; mode 'a'
appends the data rows and never writes the header.  The `bool` success
result of the source is not modelled (no I/O failure in the model); a
falsy `headers` argument is modelled by `none`. -/
def write_csv (fs : FileSys) (file_path : String) (data : List CsvRow)
    (headers : Option CsvRow := none) (mode : WriteMode := .w) : FileSys :=
  fun q =>
    if q = file_path then
      match mode with
      | .w => (match headers with | some h => [h] | none => []) ++ data
      | .a => fs file_path ++ data
    else fs q

/- Embedding of src/core/api_client.py -/

/-- MainData models the `data` payload of a main-comment API response. -/
structure MainData where
  top_replies : Option (List RawComment)
  replies : Option (List RawComment)
deriving DecidableEq

/-- ReplyData models the `data` payload of a reply-comment API response. -/
structure ReplyData where
  replies : Option (List RawComment)
deriving DecidableEq

/-- HttpResp models one HTTP response: its status code, the
application-level `code` field of the JSON body, and the body's `data`
payload. -/
structure HttpResp where
  status : Nat
  code : Int
  data : Option MainData
deriving DecidableEq

/-- STATUS_FORCELIST is the retry status list installed on the session by
`_create_session` (urllib3 `Retry(status_forcelist=[500, 502, 503, 504])`). -/
def STATUS_FORCELIST : List Nat := [500, 502, 503, 504]

/-- sessionGetWithRetry models one `session.get` through the mounted retry
adapter.  `responses` is the stream of responses the server would deliver
on successive attempts.  A response whose status is in the forcelist is
retried while the retry budget lasts and raises (modelled `none`) once the
budget is exhausted; any other response is delivered at once.  The second
component counts the HTTP attempts actually made. -/
def sessionGetWithRetry (retries : Nat) (responses : List HttpResp) : Option HttpResp × Nat :=
  match responses with
  | [] => (none, 0)
  | r :: rest =>
    if r.status ∈ STATUS_FORCELIST then
      match retries with
      | 0 => (none, 1)
      | n + 1 =>
        let (res, k) := sessionGetWithRetry n rest
        (res, k + 1)
    else (some r, 1)

/-- get_main_comments_http models `BilibiliApiClient.get_main_comments` at
the HTTP layer: the session-level retry, then the status-200 check, then
the application-code check; every failing branch returns `none` (the
source logs and returns `None`).  The second component counts HTTP
attempts. -/
def get_main_comments_http (config : CrawlConfig) (responses : List HttpResp) :
    Option MainData × Nat :=
  let (r, n) := sessionGetWithRetry config.max_retries responses
  match r with
  | some resp =>
    if resp.status = 200 then
      if resp.code = 0 then (resp.data, n) else (none, n)
    else (none, n)
  | none => (none, n)

/- Embedding of src/lib/core/crawler.py -/

/-- VideoInfo models the payload of `get_video_info`; `title` is `none` when
the `title` key is absent. -/
structure VideoInfo where
  title : Option Chars
deriving DecidableEq

/-- ApiEnv abstracts the api-client calls the crawler makes: each field maps
the request parameters to the `Option` payload the client returns (the
client already collapses every HTTP or application failure to `None`).
`formatTime` abstracts `timestamp_to_beijing_time`, a pure datetime-library
formatting the crawler only threads through into rows. -/
structure ApiEnv where
  videoInfo : String → Option VideoInfo
  mainComments : String → CommentType → Int → Option MainData
  replyComments : String → CommentType → Chars → Nat → Option ReplyData
  formatTime : Nat → Chars

/-- CSV_HEADERS is `BilibiliCrawler.CSV_HEADERS`. -/
def CSV_HEADERS : CsvRow :=
  ["昵称".toList, "性别".toList, "时间".toList, "点赞".toList, "评论".toList,
   "IP属地".toList, "等级".toList, "uid".toList, "rpid".toList]

/-- OutputPaths models the dictionary returned by
`ConfigManager.get_output_paths`. -/
structure OutputPaths where
  main_comments : String
  sub_comments : String
  all_comments : String
deriving DecidableEq

/-- get_output_paths models `ConfigManager.get_output_paths`. -/
def get_output_paths (base_name : String) : OutputPaths :=
  { main_comments := "comments/" ++ base_name ++ "_1.csv"
    sub_comments := "comments/" ++ base_name ++ "_2.csv"
    all_comments := "comments/" ++ base_name ++ "_3.csv" }

/-- init_csv_files models `BilibiliCrawler._init_csv_files`: every output
path is truncated and given the header row. -/
def init_csv_files (fs : FileSys) (paths : OutputPaths) : FileSys :=
  write_csv (write_csv (write_csv fs paths.main_comments [] (some CSV_HEADERS) .w)
    paths.sub_comments [] (some CSV_HEADERS) .w) paths.all_comments [] (some CSV_HEADERS) .w

/-- ceilPages models `math.ceil(total_count / ps)` for a positive page
size. -/
def ceilPages (total_count : Nat) (ps : Int) : Nat :=
  (((total_count : Int) + ps - 1) / ps).toNat

/-- subCommentsLoop models the page loop of `_crawl_sub_comments` over an
explicit page list: every page is fetched; a page with no data or no reply
list contributes nothing and the loop continues; otherwise each reply
becomes a row with `parent_rpid` set to the root comment id.  Returns the
pages attempted (in order) and the rows written. -/
def subCommentsLoop (env : ApiEnv) (oid : String) (ct : CommentType) (root : Chars) :
    List Nat → List Nat × List CsvRow
  | [] => ([], [])
  | page :: rest =>
    let rows :=
      match env.replyComments oid ct root page with
      | none => []
      | some d =>
        match d.replies with
        | none => []
        | some rs =>
          rs.map (fun r =>
            (CommentData.from_api_response r (env.formatTime (r.ctime.getD 0)) 0 false
              (some root)).to_list)
    let (pagesRest, rowsRest) := subCommentsLoop env oid ct root rest
    (page :: pagesRest, rows ++ rowsRest)

/-- crawlSubComments models `BilibiliCrawler._crawl_sub_comments`: computes
`total_pages = math.ceil(total_count / ps)` and runs the page loop over
pages `1 .. total_pages`. -/
def crawlSubComments (env : ApiEnv) (ps : Int) (oid : String) (ct : CommentType)
    (root : Chars) (total_count : Nat) : List Nat × List CsvRow :=
  subCommentsLoop env oid ct root (List.range' 1 (ceilPages total_count ps))

/-- processReplies models the per-comment body shared by
`_crawl_top_comments` and `_crawl_main_comments`: each raw comment becomes
a root row (with `is_top` as given), and a comment with a positive declared
reply count dispatches the sub-comment crawl.  Returns the rows written (in
write order) and the number of reply-page fetches made. -/
def processReplies (env : ApiEnv) (ps : Int) (oid : String) (ct : CommentType)
    (top : Bool) : List RawComment → List CsvRow × Nat
  | [] => ([], 0)
  | r :: rest =>
    let reply_count := r.rcount.getD 0
    let comment := CommentData.from_api_response r (env.formatTime (r.ctime.getD 0)) reply_count top
    let (subRows, subCalls) :=
      if reply_count > 0 then
        let (pages, rows) := crawlSubComments env ps oid ct comment.rpid reply_count
        (rows, pages.length)
      else ([], 0)
    let (restRows, restCalls) := processReplies env ps oid ct top rest
    (comment.to_list :: (subRows ++ restRows), subCalls + restCalls)

/-- mainCommentsLoop models the page loop of `_crawl_main_comments`: pages
are fetched one by one; a page with no data or an empty/absent comment
list breaks the loop; any other page writes its comments (dispatching the
sub-comment crawl where needed) and the loop advances.  `fuel` is the
number of remaining pages of the `range(start_page, end_page + 1)`
iteration.  Returns the main pages fetched, the rows written, and the
total number of API calls made. -/
def mainCommentsLoop (env : ApiEnv) (ps : Int) (oid : String) (ct : CommentType) :
    Nat → Int → List Int × List CsvRow × Nat
  | 0, _ => ([], [], 0)
  | fuel + 1, page =>
    match env.mainComments oid ct page with
    | none => ([page], [], 1)
    | some d =>
      match d.replies with
      | none => ([page], [], 1)
      | some [] => ([page], [], 1)
      | some rs =>
        let (rows, subCalls) := processReplies env ps oid ct false rs
        let (pages', rows', calls') := mainCommentsLoop env ps oid ct fuel (page + 1)
        (page :: pages', rows ++ rows', 1 + subCalls + calls')

/-- crawlMainComments models `BilibiliCrawler._crawl_main_comments` over the
page range `start_page .. end_page`.  The source's `bool` result is `True`
on every non-exception path and is omitted here. -/
def crawlMainComments (env : ApiEnv) (ps : Int) (oid : String) (ct : CommentType)
    (start_page end_page : Int) : List Int × List CsvRow × Nat :=
  mainCommentsLoop env ps oid ct (end_page + 1 - start_page).toNat start_page

/-- crawlTopComments models `BilibiliCrawler._crawl_top_comments`: one fetch
of page 1; absent data or an absent/empty `top_replies` list writes
nothing; otherwise each pinned comment is processed with `is_top = True`.
Returns the rows written and the number of API calls made. -/
def crawlTopComments (env : ApiEnv) (ps : Int) (oid : String) (ct : CommentType) :
    List CsvRow × Nat :=
  match env.mainComments oid ct 1 with
  | none => ([], 1)
  | some d =>
    match d.top_replies with
    | none => ([], 1)
    | some [] => ([], 1)
    | some rs =>
      let (rows, subCalls) := processReplies env ps oid ct true rs
      (rows, 1 + subCalls)

/-- getFileBaseName models `BilibiliCrawler._get_file_base_name`: video
targets convert the oid to a BV code (a parse or conversion error is the
source's exception path, yielding `None` with no network call) and fetch
the video title, falling back to `video_<oid>` when the lookup yields no
data or no title; dynamic targets use `dynamic_<oid>` with no lookup.
Returns the name and the number of API calls made. -/
def getFileBaseName (env : ApiEnv) (oid : String) (ct : CommentType) :
    Option String × Nat :=
  match ct with
  | .video =>
    match pyInt oid with
    | none => (none, 0)
    | some aid =>
      match av2bv aid with
      | none => (none, 0)
      | some bvid =>
        match env.videoInfo bvid with
        | none => (some ("video_" ++ oid), 1)
        | some info =>
          match info.title with
          | some t => (some (String.mk (clean_filename t)), 1)
          | none => (some ("video_" ++ oid), 1)
  | _ => (some ("dynamic_" ++ oid), 0)

/-- SingleOut is the observable outcome of one `crawl_single_target` call:
its boolean result, the number of API calls made, and the rows appended to
the target's output file after its initialization. -/
structure SingleOut where
  success : Bool
  calls : Nat
  rows : List CsvRow
deriving DecidableEq

/-- crawlSingleTarget models `BilibiliCrawler.crawl_single_target` as
invoked by the batch path (page bounds taken from the config): resolve the
base name (aborting with `False` when it is `None`), initialize the CSV
files, crawl the pinned comments, then crawl the main pages.  On the
modelled (exception-free) paths `_crawl_main_comments` returns `True`, so
the call succeeds exactly when the base name resolved. -/
def crawlSingleTarget (env : ApiEnv) (config : CrawlConfig) (oid : String)
    (ct : CommentType) : SingleOut :=
  match getFileBaseName env oid ct with
  | (none, calls) => { success := false, calls := calls, rows := [] }
  | (some _, nameCalls) =>
    let (topRows, topCalls) := crawlTopComments env config.ps oid ct
    let (_, mainRows, mainCalls) :=
      crawlMainComments env config.ps oid ct config.start_page config.end_page
    { success := true, calls := nameCalls + topCalls + mainCalls,
      rows := topRows ++ mainRows }

/-- ledgerEntry models the line `ProgressTracker.record_completed_task`
appends to the progress file for one completed task. -/
def ledgerEntry (task : CrawlTask) : String :=
  "爬取了" ++ task.oid ++
    (if task.comment_type = CommentType.video then "视频" else "动态") ++
    "，类型：" ++ toString task.comment_type.val ++ "\n"

/-- BatchOut is the observable outcome of one `crawl_batch_targets` call:
its boolean result, the final content of the progress file, the total
number of API calls made, and the tasks attempted in order. -/
structure BatchOut where
  success : Bool
  ledger : List String
  calls : Nat
  attempts : List CrawlTask
deriving DecidableEq

/-- crawlBatchLoop models the task loop of `crawl_batch_targets`: each task
is crawled once; a successful task appends its ledger line; failures are
logged and the loop continues.  Returns the success count, the final
ledger, the calls made, and the attempted tasks in order. -/
def crawlBatchLoop (env : ApiEnv) (config : CrawlConfig) :
    List CrawlTask → List String → Nat × List String × Nat × List CrawlTask
  | [], ledger => (0, ledger, 0, [])
  | t :: rest, ledger =>
    let r := crawlSingleTarget env config t.oid t.comment_type
    let ledger1 := if r.success then ledger ++ [ledgerEntry t] else ledger
    let (succ, ledger2, calls, att) := crawlBatchLoop env config rest ledger1
    ((if r.success then 1 else 0) + succ, ledger2, r.calls + calls, t :: att)

/-- crawlBatchTargets models `BilibiliCrawler.crawl_batch_targets` with the
loaded task list made explicit: an empty list returns `False` at once;
otherwise every task is attempted and the result is
`success_count == total_count`.  The progress-file content (`ledger`) is
threaded through; the source never reads it. -/
def crawlBatchTargets (env : ApiEnv) (config : CrawlConfig) (ledger : List String)
    (tasks : List CrawlTask) : BatchOut :=
  if tasks.isEmpty then
    { success := false, ledger := ledger, calls := 0, attempts := [] }
  else
    let (succ, ledger', calls, att) := crawlBatchLoop env config tasks ledger
    { success := succ == tasks.length, ledger := ledger', calls := calls, attempts := att }

/- Embedding of the load-then-crawl entry point (Bilibili_crawler.py main
with ConfigManager.load_config) -/

/-- load_config_ok models the validation gate of
`ConfigManager.load_config`: the built config passes exactly when
`validate` reports no errors. -/
def load_config_ok (config : CrawlConfig) : Bool :=
  config.validate.isEmpty

/-- batchMain models `Bilibili_crawler.main`: load and validate the config;
on failure return `False` before the crawler is run (zero API calls);
otherwise run the batch crawl.  Returns the boolean result and the number
of API calls made. -/
def batchMain (config : CrawlConfig) (env : ApiEnv) (ledger : List String)
    (tasks : List CrawlTask) : Bool × Nat :=
  if load_config_ok config then
    let out := crawlBatchTargets env config ledger tasks
    (out.success, out.calls)
  else (false, 0)

/- Concrete instances used by witnesses and counterexamples -/

/-- trivialEnv is an environment whose every lookup fails (the remote
service answers nothing). -/
def trivialEnv : ApiEnv where
  videoInfo := fun _ => none
  mainComments := fun _ _ _ => none
  replyComments := fun _ _ _ _ => none
  formatTime := fun _ => []

/-- cfgOK is a concrete configuration that passes validation (all other
fields keep the dataclass defaults). -/
def cfgOK : CrawlConfig := { cookies_str := "c", bili_jct := "j" }

/-- rawEmpty is a raw comment payload with every key missing. -/
def rawEmpty : RawComment := ⟨none, none, none, none, none, none, none⟩

/-- scenarioEnv is the concrete environment of the two-page scenario: main
page 1 holds two root comments carrying no replies, every later page has
an empty comment list, and all other lookups fail. -/
def scenarioEnv : ApiEnv where
  videoInfo := fun _ => none
  mainComments := fun _ _ page =>
    if page = 1 then some { top_replies := none, replies := some [rawEmpty, rawEmpty] }
    else some { top_replies := none, replies := some [] }
  replyComments := fun _ _ _ _ => none
  formatTime := fun _ => []

/-- isEndPage decides the source's break conditions for one main page: the
fetch yields no data, or the page's comment list is absent or empty. -/
def isEndPage (env : ApiEnv) (oid : String) (ct : CommentType) (page : Int) : Bool :=
  match env.mainComments oid ct page with
  | none => true
  | some d =>
    match d.replies with
    | none => true
    | some [] => true
    | some (_ :: _) => false

/-- intPages enumerates `k` consecutive integer page numbers starting at
`s`. -/
def intPages (s : Int) (k : Nat) : List Int :=
  (List.range k).map (fun i : Nat => s + (i : Int))

/- Helper lemmas and sanity checks -/

/-- Sanity check: the encoder reproduces the well-known BV code of
av170001, the value the repository's test script round-trips. -/
theorem av2bv_170001_value : av2bv 170001 = some "BV17x411w7KC" := by decide

/-- pyReplace with a single-character pattern removes every occurrence of
that character when the replacement differs from it. -/
theorem pyReplace_single_not_mem (a b : Char) (hne : b ≠ a) (s : Chars) :
    a ∉ pyReplace [a] [b] s := by
  induction s with
  | nil => simp [pyReplace]
  | cons c rest ih =>
    rw [pyReplace]
    by_cases hc : [a].isPrefixOf (c :: rest)
    · have : a = c := by
        simpa [List.isPrefixOf] using hc
      simp only [ne_eq, reduceCtorEq, not_false_eq_true, true_and, hc, if_true]
      simp only [List.length_cons, List.length_nil, Nat.zero_add, Nat.sub_self,
        List.drop_zero, List.cons_append, List.nil_append]
      intro hmem
      rcases List.mem_cons.mp hmem with h | h
      · exact hne h.symm
      · exact ih h
    · simp only [ne_eq, reduceCtorEq, not_false_eq_true, true_and, hc, if_false]
      intro hmem
      rcases List.mem_cons.mp hmem with h | h
      · subst h
        exact hc (by simp [List.isPrefixOf])
      · exact ih h

/-- C10: every comment record built from a raw API payload stores a body in
which each newline of the original message has been replaced by a comma;
consequently the body is newline-free (not stored verbatim), and the body
cell of the written row (index 4 of `to_list`) is that newline-free text. -/
theorem c10_body_newline_free (comment_data : RawComment) (formatted_time : Chars)
    (reply_count : Nat) (top : Bool) (parent : Option Chars) :
    (CommentData.from_api_response comment_data formatted_time reply_count top parent).message
      = pyReplace "\n".toList ",".toList
          ((comment_data.content.getD ⟨none⟩).message.getD [])
    ∧ '\n' ∉ (CommentData.from_api_response comment_data formatted_time reply_count top
        parent).message
    ∧ (CommentData.from_api_response comment_data formatted_time reply_count top
        parent).to_list.getD 4 []
      = (CommentData.from_api_response comment_data formatted_time reply_count top
        parent).message := by
  refine ⟨rfl, ?_, rfl⟩
  show '\n' ∉ pyReplace "\n".toList ",".toList
      ((comment_data.content.getD ⟨none⟩).message.getD [])
  exact pyReplace_single_not_mem '\n' ',' (by decide) _

/-- Folding append-mode writes over a destination extends its rows in order
and touches no other destination. -/
theorem write_csv_append_foldl (path : String) (batches : List (List CsvRow)) :
    ∀ g : FileSys,
      ((batches.foldl (fun h rows => write_csv h path rows none .a) g) path
          = g path ++ batches.flatten)
      ∧ ∀ q, q ≠ path →
          (batches.foldl (fun h rows => write_csv h path rows none .a) g) q = g q := by
  induction batches with
  | nil => intro g; simp
  | cons rows rest ih =>
    intro g
    constructor
    · have h1 := (ih (write_csv g path rows none .a)).1
      simp only [List.foldl_cons] at *
      rw [h1]
      simp [write_csv]
    · intro q hq
      have h2 := (ih (write_csv g path rows none .a)).2 q hq
      simp only [List.foldl_cons] at *
      rw [h2]
      simp [write_csv, hq]

/-- C8: initializing a destination truncates it and writes the header row
exactly once, and any sequence of subsequent appends (zero, one, or many)
only adds the given rows after it: the file ends as the single header row
followed by the appended batches in order, the header row unchanged, while
every other destination keeps its previous content. -/
theorem c8_init_then_appends (fs : FileSys) (path : String)
    (batches : List (List CsvRow)) :
    ((batches.foldl (fun h rows => write_csv h path rows none .a)
        (write_csv fs path [] (some CSV_HEADERS) .w)) path
      = CSV_HEADERS :: batches.flatten)
    ∧ ∀ q, q ≠ path →
        (batches.foldl (fun h rows => write_csv h path rows none .a)
          (write_csv fs path [] (some CSV_HEADERS) .w)) q = fs q := by
  constructor
  · rw [(write_csv_append_foldl path batches _).1]
    simp [write_csv]
  · intro q hq
    rw [(write_csv_append_foldl path batches _).2 q hq]
    simp [write_csv, hq]

/-- Witness for C8 at a concrete destination and two append batches. -/
theorem c8_init_then_appends_witness :
    (([[["r1".toList]], [["r2".toList]]].foldl
        (fun h rows => write_csv h "comments/a_3.csv" rows none .a)
        (write_csv (fun _ => []) "comments/a_3.csv" [] (some CSV_HEADERS) .w))
        "comments/a_3.csv"
      = CSV_HEADERS :: [[["r1".toList]], [["r2".toList]]].flatten)
    ∧ ∀ q, q ≠ "comments/a_3.csv" →
        (([[["r1".toList]], [["r2".toList]]].foldl
          (fun h rows => write_csv h "comments/a_3.csv" rows none .a)
          (write_csv (fun _ => []) "comments/a_3.csv" [] (some CSV_HEADERS) .w)) q
          = (fun _ => ([] : List CsvRow)) q) :=
  c8_init_then_appends (fun _ => []) "comments/a_3.csv" [[["r1".toList]], [["r2".toList]]]

/-- C5: a response with HTTP status 200 whose body carries a non-zero
application code is never retried: the very first attempt is the only one
(attempt count 1, whatever responses would follow and whatever the retry
budget is), and the call fails immediately, surfacing `none` to the
caller. -/
theorem c5_application_error_not_retried (config : CrawlConfig) (c : Int)
    (d : Option MainData) (rest : List HttpResp) (hc : c ≠ 0) :
    get_main_comments_http config (⟨200, c, d⟩ :: rest) = (none, 1) := by
  have h200 : (200 : Nat) ∉ STATUS_FORCELIST := by decide
  have hsess : sessionGetWithRetry config.max_retries (⟨200, c, d⟩ :: rest)
      = (some ⟨200, c, d⟩, 1) := by
    rw [sessionGetWithRetry.eq_def]
    simp [h200]
  simp [get_main_comments_http, hsess, hc]

/-- Witness for C5: application code 1 inside a 200 response, default retry
budget. -/
theorem c5_application_error_not_retried_witness :
    (1 : Int) ≠ 0
    ∧ get_main_comments_http cfgOK [⟨200, 1, none⟩, ⟨200, 0, none⟩] = (none, 1) :=
  ⟨by decide, c5_application_error_not_retried cfgOK 1 none [⟨200, 0, none⟩] (by decide)⟩

/-- C6: a configuration with missing or placeholder credentials, a page size
outside 1–20, a start page below 1, or an end page below the start page is
detected by `validate` (a nonempty error list), and the whole run aborts
with result `False` and zero network calls. -/
theorem c6_invalid_config_aborts (config : CrawlConfig)
    (h : (config.cookies_str = "" ∨ config.cookies_str = "写入您的cookies")
      ∨ (config.bili_jct = "" ∨ config.bili_jct = "cookie中的bili_jct")
      ∨ ¬ (1 ≤ config.ps ∧ config.ps ≤ 20)
      ∨ config.start_page < 1
      ∨ config.end_page < config.start_page) :
    config.validate ≠ []
    ∧ ∀ (env : ApiEnv) (ledger : List String) (tasks : List CrawlTask),
        batchMain config env ledger tasks = (false, 0) := by
  have hv : config.validate ≠ [] := by
    intro heq
    rw [CrawlConfig.validate] at heq
    simp only [List.append_eq_nil] at heq
    obtain ⟨⟨⟨⟨h1, h2⟩, h3⟩, h4⟩, h5⟩ := heq
    rcases h with h | h | h | h | h
    · rw [if_pos h] at h1; exact List.cons_ne_nil _ _ h1
    · rw [if_pos h] at h2; exact List.cons_ne_nil _ _ h2
    · rw [if_pos h] at h3; exact List.cons_ne_nil _ _ h3
    · rw [if_pos h] at h4; exact List.cons_ne_nil _ _ h4
    · rw [if_pos h] at h5; exact List.cons_ne_nil _ _ h5
  refine ⟨hv, fun env ledger tasks => ?_⟩
  rw [batchMain, load_config_ok]
  rw [if_neg]
  simp [List.isEmpty_iff, hv]

/-- Witness for C6: a configuration whose page size 0 is out of range. -/
theorem c6_invalid_config_aborts_witness :
    ((({ cookies_str := "c", bili_jct := "j", ps := 0 } : CrawlConfig).cookies_str = ""
        ∨ ({ cookies_str := "c", bili_jct := "j", ps := 0 } : CrawlConfig).cookies_str
            = "写入您的cookies")
      ∨ (({ cookies_str := "c", bili_jct := "j", ps := 0 } : CrawlConfig).bili_jct = ""
        ∨ ({ cookies_str := "c", bili_jct := "j", ps := 0 } : CrawlConfig).bili_jct
            = "cookie中的bili_jct")
      ∨ ¬ (1 ≤ ({ cookies_str := "c", bili_jct := "j", ps := 0 } : CrawlConfig).ps
        ∧ ({ cookies_str := "c", bili_jct := "j", ps := 0 } : CrawlConfig).ps ≤ 20)
      ∨ ({ cookies_str := "c", bili_jct := "j", ps := 0 } : CrawlConfig).start_page < 1
      ∨ ({ cookies_str := "c", bili_jct := "j", ps := 0 } : CrawlConfig).end_page
          < ({ cookies_str := "c", bili_jct := "j", ps := 0 } : CrawlConfig).start_page)
    ∧ batchMain { cookies_str := "c", bili_jct := "j", ps := 0 } trivialEnv [] []
        = (false, 0) := by
  refine ⟨by decide, ?_⟩
  exact (c6_invalid_config_aborts { cookies_str := "c", bili_jct := "j", ps := 0 }
    (by decide)).2 trivialEnv [] []

/-- The sub-comment page loop attempts exactly the pages it is given, in
order, whatever the environment answers on each page. -/
theorem subCommentsLoop_pages (env : ApiEnv) (oid : String) (ct : CommentType)
    (root : Chars) (l : List Nat) :
    (subCommentsLoop env oid ct root l).1 = l := by
  induction l with
  | nil => rfl
  | cons p rest ih =>
    rw [subCommentsLoop]
    simp [ih]

/-- C2: for a root comment with declared reply count `r > 0` and page size
`p > 0`, the reply traversal attempts exactly `ceil(r/p)` pages, namely
pages `1` through `ceil(r/p)`, for every environment — in particular a
page that yields no data or an empty reply list is skipped and the
traversal continues to the next page instead of stopping. -/
theorem c2_reply_pages_exactly_ceil (env : ApiEnv) (ps : Int) (oid : String)
    (ct : CommentType) (root : Chars) (r : Nat) (hr : 0 < r) (hps : 0 < ps) :
    (crawlSubComments env ps oid ct root r).1 = List.range' 1 (ceilPages r ps)
    ∧ ceilPages r ps = (r + ps.toNat - 1) / ps.toNat
    ∧ 0 < ceilPages r ps := by
  obtain ⟨p, rfl⟩ : ∃ p : Nat, ps = (p : Int) :=
    ⟨ps.toNat, (Int.toNat_of_nonneg (le_of_lt hps)).symm⟩
  have hp : 0 < p := by exact_mod_cast hps
  have hcast : ((r : Int) + (p : Int) - 1) = ((r + p - 1 : Nat) : Int) := by omega
  have hceil : ceilPages r (p : Int) = (r + p - 1) / p := by
    rw [ceilPages, hcast, ← Int.natCast_div]
    exact Int.toNat_natCast _
  refine ⟨?_, ?_, ?_⟩
  · exact subCommentsLoop_pages env oid ct root _
  · rw [hceil]
    simp [Int.toNat_ofNat]
  · rw [hceil]
    have : 0 < r + p - 1 := by omega
    exact Nat.div_pos (by omega) hp

/-- Witness for C2: declared total 45 and page size 20 give exactly the
three pages 1, 2, 3 (the spec's scenario), here under an environment whose
every page is empty. -/
theorem c2_reply_pages_exactly_ceil_witness :
    0 < 45 ∧ (0 : Int) < 20
    ∧ (crawlSubComments trivialEnv 20 "1" CommentType.video [] 45).1 = [1, 2, 3] := by
  refine ⟨by decide, by decide, ?_⟩
  rw [(c2_reply_pages_exactly_ceil trivialEnv 20 "1" CommentType.video [] 45
    (by decide) (by decide)).1]
  decide

/-- The pinned-comment pass always makes at least its one page-1 fetch. -/
theorem crawlTopComments_calls_pos (env : ApiEnv) (ps : Int) (oid : String)
    (ct : CommentType) : 1 ≤ (crawlTopComments env ps oid ct).2 := by
  rw [crawlTopComments]
  cases hm : env.mainComments oid ct 1 with
  | none => simp
  | some d =>
    cases ht : d.top_replies with
    | none => simp [ht]
    | some rs =>
      cases rs with
      | nil => simp [ht]
      | cons r rest => simp [ht]

/-- C9: for a video-kind target whose oid parses to a positive id but whose
title lookup fails (no data, or data without a title), name resolution
falls back to the synthetic name `video_<oid>`, and the crawl of the
target proceeds without aborting: it succeeds and keeps issuing its
post-lookup fetches (at least the title attempt plus the pinned-comment
fetch). -/
theorem c9_video_title_fallback (env : ApiEnv) (config : CrawlConfig) (oid : String)
    (aid : Int) (hparse : pyInt oid = some aid) (hpos : 0 < aid)
    (hfail : ∀ bvid, av2bv aid = some bvid →
      env.videoInfo bvid = none ∨ env.videoInfo bvid = some ⟨none⟩) :
    getFileBaseName env oid CommentType.video = (some ("video_" ++ oid), 1)
    ∧ (crawlSingleTarget env config oid CommentType.video).success = true
    ∧ 2 ≤ (crawlSingleTarget env config oid CommentType.video).calls := by
  have hbv : av2bv aid
      = some (PREFIX_STR ++ String.mk (av2bvLoop ENCODE_MAP
        (List.replicate CODE_LEN ' ') ((MAX_AID ||| aid.toNat) ^^^ XOR_CODE))) := by
    rw [av2bv, if_neg (not_le.mpr hpos)]
  have hname : getFileBaseName env oid CommentType.video = (some ("video_" ++ oid), 1) := by
    rcases hfail _ hbv with h | h <;>
      simp [getFileBaseName, hparse, hbv, h]
  refine ⟨hname, ?_, ?_⟩
  · simp [crawlSingleTarget, hname]
  · have htop := crawlTopComments_calls_pos env config.ps oid CommentType.video
    simp [crawlSingleTarget, hname]
    omega

/-- Witness for C9: oid "1" under the environment whose title lookup always
fails. -/
theorem c9_video_title_fallback_witness :
    pyInt "1" = some 1 ∧ (0 : Int) < 1
    ∧ (getFileBaseName trivialEnv "1" CommentType.video = (some ("video_" ++ "1"), 1)
      ∧ (crawlSingleTarget trivialEnv cfgOK "1" CommentType.video).success = true
      ∧ 2 ≤ (crawlSingleTarget trivialEnv cfgOK "1" CommentType.video).calls) := by
  refine ⟨by decide, by decide, ?_⟩
  exact c9_video_title_fallback trivialEnv cfgOK "1" 1 (by decide) (by decide)
    (fun bvid _ => Or.inl rfl)

/-- intPages of one page is a singleton. -/
theorem intPages_one (s : Int) : intPages s 1 = [s] := by
  simp [intPages, List.range_succ]

/-- intPages unfolds one page at the front. -/
theorem intPages_succ (s : Int) (k : Nat) :
    intPages s (k + 1) = s :: intPages (s + 1) k := by
  simp only [intPages, List.range_succ_eq_map, List.map_cons, List.map_map, Nat.cast_zero,
    add_zero]
  congr 1
  apply List.map_congr_left
  intro i _
  simp only [Function.comp_apply, Nat.succ_eq_add_one]
  push_cast
  ring

/-- Structure of the main-comment page loop: for any environment it fetches
some count `k ≤ fuel` of consecutive pages starting at `page`, and only
the last fetched page can satisfy a break condition. -/
theorem mainCommentsLoop_spec (env : ApiEnv) (ps : Int) (oid : String)
    (ct : CommentType) :
    ∀ (fuel : Nat) (page : Int),
      ∃ k : Nat,
        (mainCommentsLoop env ps oid ct fuel page).1 = intPages page k
        ∧ k ≤ fuel
        ∧ ∀ i : Nat, i + 1 < k → isEndPage env oid ct (page + (i : Int)) = false := by
  intro fuel
  induction fuel with
  | zero =>
    intro page
    exact ⟨0, by simp [mainCommentsLoop, intPages], by omega, by intro i h; omega⟩
  | succ n ih =>
    intro page
    simp only [mainCommentsLoop]
    cases hm : env.mainComments oid ct page with
    | none =>
      exact ⟨1, by rw [intPages_one], by omega, by intro i h; omega⟩
    | some d =>
      cases hr : d.replies with
      | none =>
        exact ⟨1, by simp only [hr]; rw [intPages_one], by omega, by intro i h; omega⟩
      | some rs =>
        cases rs with
        | nil =>
          exact ⟨1, by simp only [hr]; rw [intPages_one], by omega, by intro i h; omega⟩
        | cons r rest =>
          obtain ⟨k, h1, h2, h3⟩ := ih (page + 1)
          refine ⟨k + 1, ?_, by omega, ?_⟩
          · simp only [hr, intPages_succ, h1]
          · intro i hik
            cases i with
            | zero =>
              have h0 : page + ((0 : Nat) : Int) = page := by simp
              rw [h0]
              simp [isEndPage, hm, hr]
            | succ j =>
              have hj := h3 j (by omega)
              have hcast : page + ((j + 1 : Nat) : Int) = page + 1 + (j : Int) := by
                push_cast
                ring
              rw [hcast]
              exact hj

/-- C3: the main root-comment traversal fetches consecutive pages starting
at `start_page`, every fetched page lies within `[start_page, end_page]`,
and only the last fetched page can be one with no data or an empty comment
list (so nothing is fetched past such a page, nor past `end_page`); and in
the concrete two-page scenario (page 1 carries two comments, page 2 is
empty) it fetches exactly pages 1 and 2 and writes exactly two records. -/
theorem c3_main_pages_monotone_stop :
    (∀ (env : ApiEnv) (ps : Int) (oid : String) (ct : CommentType) (sp ep : Int),
      ∃ k : Nat,
        (crawlMainComments env ps oid ct sp ep).1 = intPages sp k
        ∧ (∀ q ∈ (crawlMainComments env ps oid ct sp ep).1, sp ≤ q ∧ q ≤ ep)
        ∧ ∀ i : Nat, i + 1 < k → isEndPage env oid ct (sp + (i : Int)) = false)
    ∧ (crawlMainComments scenarioEnv 20 "1" CommentType.video 1 99999).1 = [1, 2]
    ∧ (crawlMainComments scenarioEnv 20 "1" CommentType.video 1 99999).2.1.length = 2 := by
  refine ⟨?_, by decide, by decide⟩
  intro env ps oid ct sp ep
  obtain ⟨k, h1, h2, h3⟩ :=
    mainCommentsLoop_spec env ps oid ct (ep + 1 - sp).toNat sp
  refine ⟨k, h1, ?_, h3⟩
  intro q hq
  rw [crawlMainComments] at hq
  rw [h1] at hq
  simp only [intPages, List.mem_map, List.mem_range] at hq
  obtain ⟨i, hik, rfl⟩ := hq
  omega

/-- Witness for C3 applying the general part at a concrete environment and
page range. -/
theorem c3_main_pages_monotone_stop_witness :
    ∃ k : Nat,
      (crawlMainComments trivialEnv 20 "9" CommentType.video 1 5).1 = intPages 1 k
      ∧ (∀ q ∈ (crawlMainComments trivialEnv 20 "9" CommentType.video 1 5).1,
          1 ≤ q ∧ q ≤ 5)
      ∧ ∀ i : Nat, i + 1 < k → isEndPage trivialEnv "9" CommentType.video (1 + (i : Int)) = false :=
  c3_main_pages_monotone_stop.1 trivialEnv 20 "9" CommentType.video 1 5

/-- A filter keeps the whole length exactly when every element passes. -/
theorem filter_length_eq_iff {α : Type} (p : α → Bool) (l : List α) :
    ((l.filter p).length = l.length) ↔ ∀ a ∈ l, p a = true := by
  induction l with
  | nil => simp
  | cons x xs ih =>
    by_cases hx : p x = true
    · simp [hx, List.filter_cons_of_pos, ih]
    · have hle := List.length_filter_le p xs
      simp only [List.filter_cons_of_neg (by simpa using hx), List.length_cons]
      constructor
      · intro h
        omega
      · intro h
        exact absurd (h x (by simp)) (by simpa using hx)

/-- Closed form of the batch task loop: the success count is the number of
succeeding tasks, the ledger is extended (append-only, in order) by one
entry per succeeding task, the calls are the per-task call totals, and
every task in the list is attempted exactly once, in order, regardless of
the incoming ledger. -/
theorem crawlBatchLoop_spec (env : ApiEnv) (config : CrawlConfig) :
    ∀ (tasks : List CrawlTask) (ledger : List String),
      crawlBatchLoop env config tasks ledger =
        ((tasks.filter
            (fun t => (crawlSingleTarget env config t.oid t.comment_type).success)).length,
         ledger ++ (tasks.filter
            (fun t => (crawlSingleTarget env config t.oid t.comment_type).success)).map
              ledgerEntry,
         (tasks.map (fun t => (crawlSingleTarget env config t.oid t.comment_type).calls)).sum,
         tasks) := by
  intro tasks
  induction tasks with
  | nil => intro ledger; simp [crawlBatchLoop]
  | cons t rest ih =>
    intro ledger
    rw [crawlBatchLoop, ih]
    by_cases hs : (crawlSingleTarget env config t.oid t.comment_type).success = true
    · simp [hs, List.filter_cons_of_pos, List.append_assoc, Nat.add_comm]
    · simp [hs, List.filter_cons_of_neg (by simpa using hs)]

/-- C1 (amended): the completion ledger is append-only — a batch run leaves
the existing entries in place and appends one line per newly completed
target, in order — but the coordinator never reads it: whatever the ledger
already contains, every loaded task is attempted exactly once and the
network calls made are exactly the per-task call totals, so a target
already present in the ledger is re-attempted (with network calls) by a
later run over the same descriptor list. -/
theorem c1_ledger_append_only_never_read (env : ApiEnv) (config : CrawlConfig)
    (ledger : List String) (tasks : List CrawlTask) :
    (crawlBatchTargets env config ledger tasks).attempts = tasks
    ∧ (crawlBatchTargets env config ledger tasks).ledger
        = ledger ++ (tasks.filter
            (fun t => (crawlSingleTarget env config t.oid t.comment_type).success)).map
              ledgerEntry
    ∧ (crawlBatchTargets env config ledger tasks).calls
        = (tasks.map (fun t => (crawlSingleTarget env config t.oid t.comment_type).calls)).sum := by
  rw [crawlBatchTargets]
  by_cases h : tasks.isEmpty
  · obtain rfl : tasks = [] := List.isEmpty_iff.mp h
    simp
  · have hie : tasks.isEmpty = false := by
      cases hb : tasks.isEmpty
      · rfl
      · exact absurd hb h
    rw [crawlBatchLoop_spec]
    simp [hie]

/-- Counterexample to C1 as stated: with a ledger already containing the
entry for target ("7", dynamicText) and the unchanged one-target
descriptor list, the batch run still attempts that target and performs a
nonzero number of network calls for it. -/
theorem c1_counterexample_ledger_target_reattempted :
    (crawlBatchTargets trivialEnv cfgOK
        [ledgerEntry ⟨"7", CommentType.dynamicText⟩]
        [⟨"7", CommentType.dynamicText⟩]).attempts
      = [⟨"7", CommentType.dynamicText⟩]
    ∧ (crawlBatchTargets trivialEnv cfgOK
        [ledgerEntry ⟨"7", CommentType.dynamicText⟩]
        [⟨"7", CommentType.dynamicText⟩]).calls ≠ 0 := by
  decide

/-- C4 (amended): every loaded target is attempted exactly once and a
failing target does not stop the attempts on subsequent targets (the
attempt list is always the whole task list); for a nonempty loaded list
the batch result is success exactly when every target succeeded, while an
empty loaded list reports failure outright. -/
theorem c4_all_attempted_success_iff (env : ApiEnv) (config : CrawlConfig)
    (ledger : List String) (tasks : List CrawlTask) (hne : tasks ≠ []) :
    (crawlBatchTargets env config ledger tasks).attempts = tasks
    ∧ ((crawlBatchTargets env config ledger tasks).success = true
        ↔ ∀ t ∈ tasks, (crawlSingleTarget env config t.oid t.comment_type).success = true) := by
  have hie : tasks.isEmpty = false := by
    cases tasks with
    | nil => exact absurd rfl hne
    | cons a l => rfl
  rw [crawlBatchTargets, crawlBatchLoop_spec]
  simp only [hie, Bool.false_eq_true, if_false]
  refine ⟨trivial, ?_⟩
  rw [beq_iff_eq]
  exact filter_length_eq_iff _ tasks

/-- Witness for C4 with the one-target list ("5", dynamicText). -/
theorem c4_all_attempted_success_iff_witness :
    ([⟨"5", CommentType.dynamicText⟩] : List CrawlTask) ≠ []
    ∧ ((crawlBatchTargets trivialEnv cfgOK [] [⟨"5", CommentType.dynamicText⟩]).attempts
        = [⟨"5", CommentType.dynamicText⟩]
      ∧ ((crawlBatchTargets trivialEnv cfgOK [] [⟨"5", CommentType.dynamicText⟩]).success = true
          ↔ ∀ t ∈ ([⟨"5", CommentType.dynamicText⟩] : List CrawlTask),
              (crawlSingleTarget trivialEnv cfgOK t.oid t.comment_type).success = true)) :=
  ⟨by decide, c4_all_attempted_success_iff trivialEnv cfgOK [] [⟨"5", CommentType.dynamicText⟩]
    (by decide)⟩

/-- Counterexample to C4 as stated: for a batch run whose loaded descriptor
list is empty, every target in the list vacuously succeeded, yet the
coordinator reports failure, so "success iff every target succeeded" is
false as a biconditional. -/
theorem c4_counterexample_empty_batch :
    ¬ (((crawlBatchTargets trivialEnv cfgOK [] []).success = true)
        ↔ ∀ t ∈ ([] : List CrawlTask),
            (crawlSingleTarget trivialEnv cfgOK t.oid t.comment_type).success = true) := by
  intro h
  exact absurd (h.mpr (by simp)) (by decide)

/-- Every index below 58 reads an alphabet character. -/
theorem alpha_getD_mem : ∀ d : Nat, d < 58 → ALPHABET_CHARS.getD d 'F' ∈ ALPHABET_CHARS := by
  decide

/-- Looking a digit character back up in the alphabet returns its index
(the alphabet has no repeated characters). -/
theorem alpha_indexOf_getD :
    ∀ d : Nat, d < 58 → ALPHABET_CHARS.indexOf (ALPHABET_CHARS.getD d 'F') = d := by
  decide

/-- Shape of the encoding loop: the nine base-58 digits of `tmp` land in the
slots prescribed by ENCODE_MAP. -/
theorem av2bvLoop_eq (tmp : Nat) :
    av2bvLoop ENCODE_MAP (List.replicate CODE_LEN ' ') tmp =
      [ALPHABET_CHARS.getD (tmp / 58 / 58 % 58) 'F',
       ALPHABET_CHARS.getD (tmp / 58 / 58 / 58 / 58 % 58) 'F',
       ALPHABET_CHARS.getD (tmp / 58 / 58 / 58 / 58 / 58 / 58 % 58) 'F',
       ALPHABET_CHARS.getD (tmp / 58 / 58 / 58 / 58 / 58 % 58) 'F',
       ALPHABET_CHARS.getD (tmp / 58 / 58 / 58 / 58 / 58 / 58 / 58 % 58) 'F',
       ALPHABET_CHARS.getD (tmp / 58 / 58 / 58 % 58) 'F',
       ALPHABET_CHARS.getD (tmp / 58 / 58 / 58 / 58 / 58 / 58 / 58 / 58 % 58) 'F',
       ALPHABET_CHARS.getD (tmp / 58 % 58) 'F',
       ALPHABET_CHARS.getD (tmp % 58) 'F'] := rfl

/-- One step of the decoding loop on a position holding a valid alphabet
digit accumulates that digit. -/
theorem bv2avLoop_step (pos : Nat) (rest : List Nat) (body : Chars) (t d : Nat)
    (hd : d < 58) (hbody : body.getD pos ' ' = ALPHABET_CHARS.getD d 'F') :
    bv2avLoop (pos :: rest) body t = bv2avLoop rest body (t * BASE + d) := by
  rw [bv2avLoop]
  simp only [hbody, if_pos (alpha_getD_mem d hd), alpha_indexOf_getD d hd]

theorem digits_recompose (t : Nat) (h : t < 7427658739644928) :
    ((((((((t / 58 / 58 / 58 / 58 / 58 / 58 / 58 / 58 % 58) * 58
      + t / 58 / 58 / 58 / 58 / 58 / 58 / 58 % 58) * 58
      + t / 58 / 58 / 58 / 58 / 58 / 58 % 58) * 58
      + t / 58 / 58 / 58 / 58 / 58 % 58) * 58
      + t / 58 / 58 / 58 / 58 % 58) * 58
      + t / 58 / 58 / 58 % 58) * 58
      + t / 58 / 58 % 58) * 58
      + t / 58 % 58) * 58
      + t % 58 = t := by
  omega

/-- Masking to 51 bits and xoring again undoes the encoder's pre-processing
of an id below 2^51. -/
theorem mask_xor_recover (n : Nat) (hn : n < 2 ^ 51) :
    ((((2 ^ 51) ||| n) ^^^ XOR_CODE) &&& MASK_CODE) ^^^ XOR_CODE = n := by
  have hM : MASK_CODE = 2 ^ 51 - 1 := by norm_num [MASK_CODE]
  have hX : XOR_CODE < 2 ^ 51 := by norm_num [XOR_CODE]
  apply Nat.eq_of_testBit_eq
  intro i
  simp only [Nat.testBit_and, Nat.testBit_xor, Nat.testBit_or, hM,
    Nat.testBit_two_pow_sub_one, Nat.testBit_two_pow]
  by_cases hi : i < 51
  · have h51 : ¬ (51 = i) := by omega
    simp [h51, hi]
  · have hpow : (2 : Nat) ^ 51 ≤ 2 ^ i := Nat.pow_le_pow_right (by norm_num) (by omega)
    have hnb : n.testBit i = false := Nat.testBit_lt_two_pow (lt_of_lt_of_le hn hpow)
    have hxb : XOR_CODE.testBit i = false := Nat.testBit_lt_two_pow (lt_of_lt_of_le hX hpow)
    simp [hi, hnb, hxb]

/-- Decoding a well-formed BV string of nine alphabet digits reads them back
in DECODE_MAP order and applies the mask/xor post-processing. -/
theorem bv2av_of_digits (b0 b1 b2 b3 b4 b5 b6 b7 b8 : Nat)
    (h0 : b0 < 58) (h1 : b1 < 58) (h2 : b2 < 58) (h3 : b3 < 58) (h4 : b4 < 58)
    (h5 : b5 < 58) (h6 : b6 < 58) (h7 : b7 < 58) (h8 : b8 < 58) :
    bv2av (PREFIX_STR ++ String.mk
      [ALPHABET_CHARS.getD b0 'F',
       ALPHABET_CHARS.getD b1 'F',
       ALPHABET_CHARS.getD b2 'F',
       ALPHABET_CHARS.getD b3 'F',
       ALPHABET_CHARS.getD b4 'F',
       ALPHABET_CHARS.getD b5 'F',
       ALPHABET_CHARS.getD b6 'F',
       ALPHABET_CHARS.getD b7 'F',
       ALPHABET_CHARS.getD b8 'F']) =
      some ((((((((((((0 * BASE + b6) * BASE + b4) * BASE + b2) * BASE + b3) * BASE + b1) * BASE + b5) * BASE + b0) * BASE + b7) * BASE + b8) &&& MASK_CODE) ^^^ XOR_CODE : Nat) : Int) := by
  have hdata : (PREFIX_STR ++ String.mk
      [ALPHABET_CHARS.getD b0 'F',
       ALPHABET_CHARS.getD b1 'F',
       ALPHABET_CHARS.getD b2 'F',
       ALPHABET_CHARS.getD b3 'F',
       ALPHABET_CHARS.getD b4 'F',
       ALPHABET_CHARS.getD b5 'F',
       ALPHABET_CHARS.getD b6 'F',
       ALPHABET_CHARS.getD b7 'F',
       ALPHABET_CHARS.getD b8 'F']).toList
    = 'B' :: 'V' :: '1' ::
      [ALPHABET_CHARS.getD b0 'F',
       ALPHABET_CHARS.getD b1 'F',
       ALPHABET_CHARS.getD b2 'F',
       ALPHABET_CHARS.getD b3 'F',
       ALPHABET_CHARS.getD b4 'F',
       ALPHABET_CHARS.getD b5 'F',
       ALPHABET_CHARS.getD b6 'F',
       ALPHABET_CHARS.getD b7 'F',
       ALPHABET_CHARS.getD b8 'F'] := by
    show (PREFIX_STR ++ String.mk _).data = _
    rw [String.data_append]
    rfl
  have hpre : PREFIX_STR.toList.isPrefixOf ('B' :: 'V' :: '1' ::
      [ALPHABET_CHARS.getD b0 'F',
       ALPHABET_CHARS.getD b1 'F',
       ALPHABET_CHARS.getD b2 'F',
       ALPHABET_CHARS.getD b3 'F',
       ALPHABET_CHARS.getD b4 'F',
       ALPHABET_CHARS.getD b5 'F',
       ALPHABET_CHARS.getD b6 'F',
       ALPHABET_CHARS.getD b7 'F',
       ALPHABET_CHARS.getD b8 'F']) = true := rfl
  have hdrop : List.drop PREFIX_STR.length ('B' :: 'V' :: '1' ::
      [ALPHABET_CHARS.getD b0 'F',
       ALPHABET_CHARS.getD b1 'F',
       ALPHABET_CHARS.getD b2 'F',
       ALPHABET_CHARS.getD b3 'F',
       ALPHABET_CHARS.getD b4 'F',
       ALPHABET_CHARS.getD b5 'F',
       ALPHABET_CHARS.getD b6 'F',
       ALPHABET_CHARS.getD b7 'F',
       ALPHABET_CHARS.getD b8 'F'])
    = [ALPHABET_CHARS.getD b0 'F',
       ALPHABET_CHARS.getD b1 'F',
       ALPHABET_CHARS.getD b2 'F',
       ALPHABET_CHARS.getD b3 'F',
       ALPHABET_CHARS.getD b4 'F',
       ALPHABET_CHARS.getD b5 'F',
       ALPHABET_CHARS.getD b6 'F',
       ALPHABET_CHARS.getD b7 'F',
       ALPHABET_CHARS.getD b8 'F'] := rfl
  have hloop : bv2avLoop DECODE_MAP
      [ALPHABET_CHARS.getD b0 'F',
       ALPHABET_CHARS.getD b1 'F',
       ALPHABET_CHARS.getD b2 'F',
       ALPHABET_CHARS.getD b3 'F',
       ALPHABET_CHARS.getD b4 'F',
       ALPHABET_CHARS.getD b5 'F',
       ALPHABET_CHARS.getD b6 'F',
       ALPHABET_CHARS.getD b7 'F',
       ALPHABET_CHARS.getD b8 'F'] 0
    = some (((((((((0 * BASE + b6) * BASE + b4) * BASE + b2) * BASE + b3) * BASE + b1) * BASE + b5) * BASE + b0) * BASE + b7) * BASE + b8) := by
    rw [show DECODE_MAP = [6, 4, 2, 3, 1, 5, 0, 7, 8] from rfl]
    rw [bv2avLoop_step 6 _ _ _ b6 h6 rfl]
    rw [bv2avLoop_step 4 _ _ _ b4 h4 rfl]
    rw [bv2avLoop_step 2 _ _ _ b2 h2 rfl]
    rw [bv2avLoop_step 3 _ _ _ b3 h3 rfl]
    rw [bv2avLoop_step 1 _ _ _ b1 h1 rfl]
    rw [bv2avLoop_step 5 _ _ _ b5 h5 rfl]
    rw [bv2avLoop_step 0 _ _ _ b0 h0 rfl]
    rw [bv2avLoop_step 7 _ _ _ b7 h7 rfl]
    rw [bv2avLoop_step 8 _ _ _ b8 h8 rfl]
    rfl
  rw [bv2av, hdata]
  rw [if_neg (by rw [hpre]; simp)]
  rw [hdrop]
  rw [if_neg (by simp)]
  rw [hloop]

/-- C7: for every valid positive aid (positive and below MAX_AID), encoding
with av2bv and decoding with bv2av composes to the identity. -/
theorem c7_av_bv_roundtrip (aid : Int) (hpos : 0 < aid) (hlt : aid < ((MAX_AID : Nat) : Int)) :
    (av2bv aid).bind bv2av = some aid := by
  obtain ⟨n, rfl⟩ := Int.eq_ofNat_of_zero_le hpos.le
  have hM : MAX_AID = 2 ^ 51 := by norm_num [MAX_AID, Nat.shiftLeft_eq]
  have hltn : n < 2 ^ 51 := by
    have h2 := hlt
    rw [hM] at h2
    exact_mod_cast h2
  have htn : ((n : Int)).toNat = n := Int.toNat_natCast n
  have hbody : av2bv (n : Int)
      = some (PREFIX_STR ++ String.mk (av2bvLoop ENCODE_MAP (List.replicate CODE_LEN ' ')
          ((MAX_AID ||| n) ^^^ XOR_CODE))) := by
    rw [av2bv, if_neg (not_le.mpr hpos), htn]
  rw [hbody, Option.some_bind]
  rw [av2bvLoop_eq ((MAX_AID ||| n) ^^^ XOR_CODE)]
  have h58 : (0 : Nat) < 58 := by norm_num
  rw [bv2av_of_digits _ _ _ _ _ _ _ _ _
    (Nat.mod_lt _ h58) (Nat.mod_lt _ h58) (Nat.mod_lt _ h58) (Nat.mod_lt _ h58)
    (Nat.mod_lt _ h58) (Nat.mod_lt _ h58) (Nat.mod_lt _ h58) (Nat.mod_lt _ h58)
    (Nat.mod_lt _ h58)]
  have htmp_lt : (MAX_AID ||| n) ^^^ XOR_CODE < 7427658739644928 := by
    have h1 : MAX_AID ||| n < 2 ^ 52 := by
      apply Nat.or_lt_two_pow
      · rw [hM]; norm_num
      · exact lt_trans hltn (by norm_num)
    have h2 : (MAX_AID ||| n) ^^^ XOR_CODE < 2 ^ 52 :=
      Nat.xor_lt_two_pow h1 (by norm_num [XOR_CODE])
    calc (MAX_AID ||| n) ^^^ XOR_CODE < 2 ^ 52 := h2
      _ < 7427658739644928 := by norm_num
  have hacc :
      ((((((((((0 : Nat) * BASE
          + ((MAX_AID ||| n) ^^^ XOR_CODE) / 58 / 58 / 58 / 58 / 58 / 58 / 58 / 58 % 58) * BASE
          + ((MAX_AID ||| n) ^^^ XOR_CODE) / 58 / 58 / 58 / 58 / 58 / 58 / 58 % 58) * BASE
          + ((MAX_AID ||| n) ^^^ XOR_CODE) / 58 / 58 / 58 / 58 / 58 / 58 % 58) * BASE
          + ((MAX_AID ||| n) ^^^ XOR_CODE) / 58 / 58 / 58 / 58 / 58 % 58) * BASE
          + ((MAX_AID ||| n) ^^^ XOR_CODE) / 58 / 58 / 58 / 58 % 58) * BASE
          + ((MAX_AID ||| n) ^^^ XOR_CODE) / 58 / 58 / 58 % 58) * BASE
          + ((MAX_AID ||| n) ^^^ XOR_CODE) / 58 / 58 % 58) * BASE
          + ((MAX_AID ||| n) ^^^ XOR_CODE) / 58 % 58) * BASE
          + ((MAX_AID ||| n) ^^^ XOR_CODE) % 58)
        = (MAX_AID ||| n) ^^^ XOR_CODE := by
    rw [show BASE = 58 from rfl]
    omega
  rw [hacc]
  rw [hM]
  rw [mask_xor_recover n hltn]

/-- Witness for C7 at aid 170001 (the round-trip value asserted by the
repository's own test script). -/
theorem c7_av_bv_roundtrip_witness :
    (0 : Int) < 170001 ∧ (170001 : Int) < ((MAX_AID : Nat) : Int)
    ∧ (av2bv 170001).bind bv2av = some 170001 :=
  ⟨by decide, by decide, c7_av_bv_roundtrip 170001 (by decide) (by decide)⟩

/-- Witness for C10 at a concrete payload whose message contains a
newline. -/
theorem c10_body_newline_free_witness :
    (CommentData.from_api_response
        ⟨none, some ⟨some ('a' :: '\n' :: 'b' :: [])⟩, none, none, none, none, none⟩
        [] 0 false none).message
      = pyReplace "\n".toList ",".toList
          (((⟨none, some ⟨some ('a' :: '\n' :: 'b' :: [])⟩, none, none, none, none,
              none⟩ : RawComment).content.getD ⟨none⟩).message.getD [])
    ∧ '\n' ∉ (CommentData.from_api_response
        ⟨none, some ⟨some ('a' :: '\n' :: 'b' :: [])⟩, none, none, none, none, none⟩
        [] 0 false none).message
    ∧ (CommentData.from_api_response
        ⟨none, some ⟨some ('a' :: '\n' :: 'b' :: [])⟩, none, none, none, none, none⟩
        [] 0 false none).to_list.getD 4 []
      = (CommentData.from_api_response
        ⟨none, some ⟨some ('a' :: '\n' :: 'b' :: [])⟩, none, none, none, none, none⟩
        [] 0 false none).message :=
  c10_body_newline_free
    ⟨none, some ⟨some ('a' :: '\n' :: 'b' :: [])⟩, none, none, none, none, none⟩
    [] 0 false none
